import Mathlib

/-!
Verification of the TuneIQ royalty-estimation core and its adapters.

The repository's dashboard (`app.py`) imports three core functions,
`estimate_royalties`, `detect_underpayment` and `economic_impact_proxy`,
from a `models` module whose source is not among the files available here;
only callers are.  Those three functions and their data model are therefore
modelled from the specification (doc comments starting `Modelled from the
spec:`).  The adapter code that is available (`data_pipeline.py`,
`economic_impact.py`, `predictor.py`) is embedded directly from the source.

Monetary amounts and rates are modelled as exact rationals (`Rat`); stream
counts as integers.
-/

namespace TuneIQ

/-- Modelled from the spec: `RateTable` (section 3) — a fixed mapping from
(platform, country) to a per-stream royalty rate in NGN, with a platform-level
default rate used when the country is unmapped and a global default when the
platform is also unrecognized.  The concrete table lives in the repository's
`models.py`, which is missing from the available sources. -/
structure RateTable where
  exact_rates : List ((String × String) × Rat)
  platform_rates : List (String × Rat)
  global_default : Rat
  deriving DecidableEq

/-- Modelled from the spec: a raw `StreamRecord` (section 3) as it may arrive
from the excluded adapters — `platform`, `country`, `streams` and
`actual_revenue_ngn` may each be missing (null). -/
structure RawRecord where
  platform : Option String
  country : Option String
  streams : Option Int
  actual_revenue_ngn : Option Rat
  deriving DecidableEq

/-- A stream record after malformed-field recovery: all required fields
present; `actual_revenue_ngn` may still be absent and is then synthesized. -/
structure CleanRecord where
  platform : String
  country : String
  streams : Int
  actual_revenue_ngn : Option Rat
  deriving DecidableEq

/-- Modelled from the spec: `EnrichedRecord` (section 3) — the input record
plus the derived `expected_revenue_ngn` and a concrete `actual_revenue_ngn`. -/
structure EnrichedRecord where
  platform : String
  country : String
  streams : Int
  expected_revenue_ngn : Rat
  actual_revenue_ngn : Rat
  deriving DecidableEq

/-- The dashboard's primary platform, used as the default for a null platform
(`app.py` fills missing platforms with the string "Spotify"). -/
def primary_platform : String := "Spotify"

/-- Modelled from the spec: `resolve_rate` (section 4.1) — the three-tier
deterministic rate fallback: exact (platform, country) rate, else the
platform-level default, else the single global default. -/
def resolve_rate (rt : RateTable) (platform country : String) : Rat :=
  match List.lookup (platform, country) rt.exact_rates with
  | some r => r
  | none =>
    match List.lookup platform rt.platform_rates with
    | some r => r
    | none => rt.global_default

/-- Modelled from the spec: malformed-row recovery (sections 4.1, 7) — a null
platform defaults to the dashboard's primary platform, null streams default
to 0, negative streams are clamped to 0; a row with a null country is
dropped. -/
def recoverRow (r : RawRecord) : Option CleanRecord :=
  match r.country with
  | none => none
  | some c =>
    some { platform := r.platform.getD primary_platform
           country := c
           streams := max 0 (r.streams.getD 0)
           actual_revenue_ngn := r.actual_revenue_ngn }

/-- Modelled from the spec: per-row enrichment (section 4.1) —
`expected_revenue_ngn = streams * resolved_rate`; `actual_revenue_ngn` passes
through when supplied, else is synthesized as a configured fraction of the
expected revenue. -/
def enrichRow (rt : RateTable) (synth_fraction : Rat) (r : CleanRecord) :
    EnrichedRecord :=
  let expected : Rat := (r.streams : Rat) * resolve_rate rt r.platform r.country
  { platform := r.platform
    country := r.country
    streams := r.streams
    expected_revenue_ngn := expected
    actual_revenue_ngn := r.actual_revenue_ngn.getD (synth_fraction * expected) }

/-- Modelled from the spec: `estimate_royalties` (section 4.1) — recover or
drop malformed rows, then enrich every surviving row.  A pure transform. -/
def estimate_royalties (rt : RateTable) (synth_fraction : Rat)
    (xs : List RawRecord) : List EnrichedRecord :=
  (xs.filterMap recoverRow).map (enrichRow rt synth_fraction)

/-- Re-reading an enriched record as a raw input record (all fields present),
used to state idempotence of re-application. -/
def toRaw (e : EnrichedRecord) : RawRecord :=
  { platform := some e.platform
    country := some e.country
    streams := some e.streams
    actual_revenue_ngn := some e.actual_revenue_ngn }

/-- Modelled from the spec: `CountryAggregate` (section 3) — the per-country
rollup produced by the underpayment detector. -/
structure CountryAggregate where
  country : String
  total_streams : Int
  expected_revenue_ngn : Rat
  actual_revenue_ngn : Rat
  revenue_gap : Rat
  gap_ratio : Rat
  deriving DecidableEq

/-- Modelled from the spec: the per-country rollup (section 4.2, step 1 and
step 2) — sum streams, expected and actual revenue over the country's rows;
`gap_ratio = (expected - actual) / expected`, guarded to 0 when
`expected = 0`. -/
def mkCountryAggregate (xs : List EnrichedRecord) (c : String) :
    CountryAggregate :=
  let rows := xs.filter (fun r => decide (r.country = c))
  let expected : Rat := (rows.map (·.expected_revenue_ngn)).sum
  let actual : Rat := (rows.map (·.actual_revenue_ngn)).sum
  { country := c
    total_streams := (rows.map (·.streams)).sum
    expected_revenue_ngn := expected
    actual_revenue_ngn := actual
    revenue_gap := expected - actual
    gap_ratio := if expected = 0 then 0 else (expected - actual) / expected }

/-- Modelled from the spec: group the enriched rows by country (one aggregate
per distinct country). -/
def aggregateByCountry (xs : List EnrichedRecord) : List CountryAggregate :=
  ((xs.map (·.country)).dedup).map (mkCountryAggregate xs)

/-- The ranking relation of the detector output: descending by absolute
revenue gap, ties broken by country name ascending (deterministic). -/
def aggLE (a b : CountryAggregate) : Prop :=
  |b.revenue_gap| < |a.revenue_gap| ∨
    (|a.revenue_gap| = |b.revenue_gap| ∧ a.country ≤ b.country)

instance : DecidableRel aggLE := fun a b => by
  unfold aggLE; infer_instance

instance : IsTotal CountryAggregate aggLE := by
  constructor
  intro a b
  rcases lt_trichotomy |a.revenue_gap| |b.revenue_gap| with h | h | h
  · exact Or.inr (Or.inl h)
  · rcases le_total a.country b.country with hc | hc
    · exact Or.inl (Or.inr ⟨h, hc⟩)
    · exact Or.inr (Or.inr ⟨h.symm, hc⟩)
  · exact Or.inl (Or.inl h)

instance : IsTrans CountryAggregate aggLE := by
  constructor
  intro a b c hab hbc
  rcases hab with h1 | ⟨h1, hc1⟩
  · rcases hbc with h2 | ⟨h2, _⟩
    · exact Or.inl (h2.trans h1)
    · exact Or.inl (h2 ▸ h1)
  · rcases hbc with h2 | ⟨h2, hc2⟩
    · exact Or.inl (by rw [h1]; exact h2)
    · exact Or.inr ⟨h1.trans h2, hc1.trans hc2⟩

/-- Modelled from the spec: `detect_underpayment` (section 4.2) — aggregate by
country, flag the countries with `gap_ratio >= threshold` (a country with zero
expected revenue is never flagged), return the flagged set ranked descending
by absolute revenue gap, ties broken by country name. -/
def detect_underpayment (xs : List EnrichedRecord) (threshold : Rat) :
    List CountryAggregate :=
  List.insertionSort aggLE
    ((aggregateByCountry xs).filter
      (fun a => decide (a.expected_revenue_ngn ≠ 0 ∧ threshold ≤ a.gap_ratio)))

/-- Modelled from the spec: `ImpactMetrics` (section 3) — four scalar
proxies. -/
structure ImpactMetrics where
  direct_revenue_ngn : Rat
  indirect_revenue_ngn : Rat
  cultural_export_value_ngn : Rat
  total_economic_impact_ngn : Rat
  deriving DecidableEq

/-- Modelled from the spec: the fixed configured indirect-revenue multiplier
(section 4.3); the spec documents it as a policy constant of undocumented
provenance, so a representative default is fixed here. -/
def indirect_multiplier : Rat := 3/2

/-- Modelled from the spec: the NGN value credited per (extra country,
stream) pair by the cultural-export formula; a policy constant. -/
def cultural_rate : Rat := 100

/-- Number of distinct countries appearing in the enriched table. -/
def distinct_country_count (xs : List EnrichedRecord) : Nat :=
  ((xs.map (·.country)).dedup).length

/-- Total streams over the enriched table. -/
def total_streams_sum (xs : List EnrichedRecord) : Int :=
  (xs.map (·.streams)).sum

/-- Modelled from the spec: `cultural_export_value_ngn` (section 4.3) — a
monotonic function of the distinct country count and the total streams,
0 when there is at most one country or no streams. -/
def cultural_export_value (countries : Nat) (streams : Int) : Rat :=
  if countries ≤ 1 ∨ streams ≤ 0 then 0
  else ((countries - 1 : Nat) : Rat) * (streams : Rat) * cultural_rate

/-- Modelled from the spec: `economic_impact_proxy` (section 4.3) — direct
revenue is the sum of actual revenue, indirect is direct times the fixed
multiplier, cultural export rewards geographic spread, and the total is their
sum. -/
def economic_impact_proxy (xs : List EnrichedRecord) : ImpactMetrics :=
  let direct : Rat := (xs.map (·.actual_revenue_ngn)).sum
  let indirect : Rat := direct * indirect_multiplier
  let cultural : Rat :=
    cultural_export_value (distinct_country_count xs) (total_streams_sum xs)
  { direct_revenue_ngn := direct
    indirect_revenue_ngn := indirect
    cultural_export_value_ngn := cultural
    total_economic_impact_ngn := direct + indirect + cultural }

/-- Abstract stand-in for a pandas DataFrame as far as `fetch_live_data`
inspects it: only emptiness matters. -/
structure DataFrame where
  nrows : Nat
  deriving DecidableEq

/-- The empty DataFrame (`pd.DataFrame()`). -/
def DataFrame.emptyFrame : DataFrame := ⟨0⟩

/-- Python `str.lower()`, character by character (the source strings are all
ASCII). -/
def lowerString (s : String) : String := String.mk (s.data.map Char.toLower)

/-- Embedded from `data_pipeline.py`, `fetch_live_data` (lines 95-131): the
source string is lowercased; "spotify" and "youtube" return an empty frame
(credentials are required), "web" scrapes and returns the scraped frame or an
empty one (exceptions are caught), anything else raises `ValueError`.  The
scrape outcome is a parameter: `none` models `scrape_music_trends` raising,
`some df` models it returning `df`. -/
def fetch_live_data (scrape_outcome : Option DataFrame) (source : String) :
    Except String DataFrame :=
  if lowerString source = "spotify" then .ok DataFrame.emptyFrame
  else if lowerString source = "youtube" then .ok DataFrame.emptyFrame
  else if lowerString source = "web" then
    match scrape_outcome with
    | some df => if df.nrows ≠ 0 then .ok df else .ok DataFrame.emptyFrame
    | none => .ok DataFrame.emptyFrame
  else .error ("Invalid data source " ++ source ++ ". Use spotify, youtube, or web.")

/-- Embedded from `economic_impact.py`, `display_economic_impact_section`
(lines 204-209): the source string passed to `fetch_live_data` for the
credentialed sources — "Apple Music" maps to "apple_music", otherwise the
lowercased selection. -/
def sourceArg (data_source : String) : String :=
  if data_source = "Apple Music" then "apple_music" else lowerString data_source

/-- Embedded from `predictor.py` line 29: NGN of GDP per stream (0.0005). -/
def GDP_PER_STREAM : Rat := 5/10000

/-- Embedded from `predictor.py` line 31: jobs per NGN of GDP (1/1000000). -/
def JOB_PER_GDP : Rat := 1/1000000

/-- Python `int()` applied to a rational: truncation toward zero. -/
def intTrunc (q : Rat) : Int := if q < 0 then q.ceil else q.floor

/-- The result dictionary returned by `predict_impact`. -/
structure PredictResult where
  predicted_gdp : Option Rat
  predicted_jobs : Option Int
  confidence : Option Rat
  error : Option String
  estimation : Bool
  auto_scaled : Bool
  deriving DecidableEq

/-- Embedded from `predictor.py`, `prepare_features` (lines 62-67) projected
to the only feature the fallback reads: `streams_col` is the `streams` column
(`none` when absent), and the "Streams Last 30 Days (Millions)" feature is
the column sum over one million, or 0.5 when the column is absent. -/
def streamsMillions (streams_col : Option (List Int)) : Rat :=
  match streams_col with
  | some s => (s.sum : Rat) / 1000000
  | none => 1/2

/-- Embedded from `predictor.py`, `predict_impact` (lines 132-173), the
branch taken when the model cannot be loaded.  `prepare_features` always
yields one row over `DEFAULT_FEATURES` (never empty), so the feature frame is
available; streams are recovered from the prepared feature, with a second
read of the raw column when the feature is zero. -/
def predict_impact_fallback (streams_col : Option (List Int)) : PredictResult :=
  let sm := streamsMillions streams_col
  let ts0 : Rat := sm * 1000000
  let ts : Rat :=
    if ts0 = 0 ∧ streams_col.isSome then ((streams_col.getD []).sum : Rat)
    else ts0
  let gdp : Rat := ts * GDP_PER_STREAM
  let jobs : Int := max 7 (intTrunc (gdp * JOB_PER_GDP))
  { predicted_gdp := some gdp
    predicted_jobs := some jobs
    confidence := some (35/100)
    error := none
    estimation := true
    auto_scaled := false }

/-! ## Shared lemmas -/

/-- Any aggregate with zero summed expected revenue has `gap_ratio = 0` (the
division-by-zero guard). -/
theorem aggregate_gap_ratio_zero {xs : List EnrichedRecord}
    {a : CountryAggregate} (ha : a ∈ aggregateByCountry xs)
    (h0 : a.expected_revenue_ngn = 0) : a.gap_ratio = 0 := by
  obtain ⟨c, _, rfl⟩ := List.mem_map.1 ha
  simp only [mkCountryAggregate] at h0 ⊢
  rw [if_pos h0]

/-- A recovered row always carries a non-negative stream count. -/
theorem recoverRow_streams_nonneg {r : RawRecord} {cl : CleanRecord}
    (h : recoverRow r = some cl) : 0 ≤ cl.streams := by
  unfold recoverRow at h
  cases hc : r.country with
  | none => rw [hc] at h; exact absurd h (by simp)
  | some c =>
    rw [hc] at h
    cases Option.some_inj.1 h
    exact le_max_left 0 _

/-- Reading an enriched row back as raw input recovers the clean row (with the
stream clamp collapsed) together with its concrete actual revenue. -/
theorem recover_toRaw_enrich (rt : RateTable) (f : Rat) (cl : CleanRecord)
    (h : 0 ≤ cl.streams) :
    recoverRow (toRaw (enrichRow rt f cl)) = some
      { platform := cl.platform
        country := cl.country
        streams := cl.streams
        actual_revenue_ngn := some ((enrichRow rt f cl).actual_revenue_ngn) } := by
  simp [recoverRow, toRaw, enrichRow, max_eq_right h]

/-- Re-enriching a clean row whose actual revenue has been made concrete
changes nothing. -/
theorem enrich_recover_toRaw (rt : RateTable) (f : Rat) (cl : CleanRecord) :
    enrichRow rt f
      { platform := cl.platform
        country := cl.country
        streams := cl.streams
        actual_revenue_ngn := some ((enrichRow rt f cl).actual_revenue_ngn) }
      = enrichRow rt f cl := by
  simp [enrichRow]

/-- Re-applying the estimator to its own output reproduces that output. -/
theorem estimate_royalties_reapply (rt : RateTable) (f : Rat)
    (xs : List RawRecord) :
    estimate_royalties rt f ((estimate_royalties rt f xs).map toRaw)
      = estimate_royalties rt f xs := by
  induction xs with
  | nil => rfl
  | cons r xs ih =>
    cases hrec : recoverRow r with
    | none =>
      have h1 : estimate_royalties rt f (r :: xs) = estimate_royalties rt f xs := by
        simp [estimate_royalties, List.filterMap_cons, hrec]
      rw [h1, ih]
    | some cl =>
      have hstream : 0 ≤ cl.streams := recoverRow_streams_nonneg hrec
      have h1 : estimate_royalties rt f (r :: xs)
          = enrichRow rt f cl :: estimate_royalties rt f xs := by
        simp [estimate_royalties, List.filterMap_cons, hrec]
      rw [h1]
      show estimate_royalties rt f
          (toRaw (enrichRow rt f cl) :: (estimate_royalties rt f xs).map toRaw)
          = _
      have h2 : estimate_royalties rt f
          (toRaw (enrichRow rt f cl) :: (estimate_royalties rt f xs).map toRaw)
          = enrichRow rt f
              { platform := cl.platform
                country := cl.country
                streams := cl.streams
                actual_revenue_ngn := some ((enrichRow rt f cl).actual_revenue_ngn) }
            :: estimate_royalties rt f ((estimate_royalties rt f xs).map toRaw) := by
        simp [estimate_royalties, List.filterMap_cons,
          recover_toRaw_enrich rt f cl hstream]
      rw [h2, enrich_recover_toRaw rt f cl, ih]

/-- The estimator emits exactly one output row per input row with a non-null
country. -/
theorem estimate_royalties_length (rt : RateTable) (f : Rat)
    (xs : List RawRecord) :
    (estimate_royalties rt f xs).length
      = xs.countP (fun r => r.country.isSome) := by
  induction xs with
  | nil => rfl
  | cons r xs ih =>
    cases hc : r.country with
    | none =>
      have hrec : recoverRow r = none := by simp [recoverRow, hc]
      simp [estimate_royalties, List.filterMap_cons, hrec, List.countP_cons, hc]
      simpa [estimate_royalties] using ih
    | some c =>
      have hrec : recoverRow r
          = some { platform := r.platform.getD primary_platform
                   country := c
                   streams := max 0 (r.streams.getD 0)
                   actual_revenue_ngn := r.actual_revenue_ngn } := by
        simp [recoverRow, hc]
      simp [estimate_royalties, List.filterMap_cons, hrec, List.countP_cons, hc]
      simpa [estimate_royalties] using ih

/-! ## Claims -/

/-- C4: for every enriched input table, `economic_impact_proxy` returns
`direct_revenue_ngn` equal to the sum of `actual_revenue_ngn` over all rows,
`indirect_revenue_ngn` equal to direct times the fixed configured indirect
multiplier, and `total_economic_impact_ngn` equal to direct + indirect +
cultural export value. -/
theorem C4_impact_formulas (xs : List EnrichedRecord) :
    (economic_impact_proxy xs).direct_revenue_ngn
        = (xs.map (·.actual_revenue_ngn)).sum ∧
    (economic_impact_proxy xs).indirect_revenue_ngn
        = (economic_impact_proxy xs).direct_revenue_ngn * indirect_multiplier ∧
    (economic_impact_proxy xs).total_economic_impact_ngn
        = (economic_impact_proxy xs).direct_revenue_ngn
          + (economic_impact_proxy xs).indirect_revenue_ngn
          + (economic_impact_proxy xs).cultural_export_value_ngn :=
  ⟨rfl, rfl, rfl⟩

/-- C6: on an empty input table none of the three core functions fails —
`estimate_royalties` returns the empty enriched table, `detect_underpayment`
returns the empty sequence for every threshold, and `economic_impact_proxy`
returns all four metrics present with value 0. -/
theorem C6_empty_inputs :
    (∀ (rt : RateTable) (f : Rat), estimate_royalties rt f [] = []) ∧
    (∀ t : Rat, detect_underpayment [] t = []) ∧
    economic_impact_proxy [] = ⟨0, 0, 0, 0⟩ :=
  ⟨fun _ _ => rfl, fun _ => rfl, by
    simp [economic_impact_proxy, cultural_export_value, distinct_country_count,
      total_streams_sum]⟩

/-- C7: `estimate_royalties` is pure and idempotent — calling it twice on the
same input yields identical output, and re-applying it to its own enriched
output leaves every `expected_revenue_ngn` value unchanged, given the same
rate table. -/
theorem C7_idempotent (rt : RateTable) (f : Rat) (xs : List RawRecord) :
    estimate_royalties rt f xs = estimate_royalties rt f xs ∧
    (estimate_royalties rt f ((estimate_royalties rt f xs).map toRaw)).map
        (·.expected_revenue_ngn)
      = (estimate_royalties rt f xs).map (·.expected_revenue_ngn) :=
  ⟨rfl, by rw [estimate_royalties_reapply]⟩

/-- C8: malformed rows never make `estimate_royalties` fail — a row with a
null country is dropped and every other row is recovered (platform defaults
to the dashboard's primary platform, streams default to 0), so the batch
still produces one output row per row with a country. -/
theorem C8_malformed_rows (rt : RateTable) (f : Rat) (xs : List RawRecord) :
    (estimate_royalties rt f xs).length
        = xs.countP (fun r => r.country.isSome) ∧
    (∀ (p : Option String) (c : String) (s : Option Int) (a : Option Rat),
      recoverRow ⟨p, some c, s, a⟩
        = some ⟨p.getD primary_platform, c, max 0 (s.getD 0), a⟩) :=
  ⟨estimate_royalties_length rt f xs, fun _ _ _ _ => rfl⟩

/-- C9: `fetch_live_data` raises `ValueError` exactly when the lowercased
source string is not "spotify", "youtube" or "web" (the three accepted
sources return a frame, possibly empty, and never raise); the string
"apple_music", which `display_economic_impact_section` passes when the user
selects Apple Music, triggers that `ValueError`. -/
theorem C9_fetch_source_validation (scr : Option DataFrame) (s : String) :
    (lowerString s ≠ "spotify" → lowerString s ≠ "youtube" →
      lowerString s ≠ "web" →
        ∃ msg, fetch_live_data scr s = Except.error msg) ∧
    (lowerString s = "spotify" ∨ lowerString s = "youtube" ∨
        lowerString s = "web" →
        ∃ df, fetch_live_data scr s = Except.ok df) ∧
    sourceArg "Apple Music" = "apple_music" ∧
    (∀ scr2 : Option DataFrame,
      ∃ msg, fetch_live_data scr2 (sourceArg "Apple Music")
        = Except.error msg) := by
  refine ⟨?_, ?_, rfl, ?_⟩
  · intro h1 h2 h3
    exact ⟨"Invalid data source " ++ s ++ ". Use spotify, youtube, or web.",
      by simp [fetch_live_data, h1, h2, h3]⟩
  · rintro (h | h | h)
    · exact ⟨DataFrame.emptyFrame, by simp [fetch_live_data, h]⟩
    · exact ⟨DataFrame.emptyFrame, by simp [fetch_live_data, h]⟩
    · cases scr with
      | none => exact ⟨DataFrame.emptyFrame, by simp [fetch_live_data, h]⟩
      | some df =>
        by_cases hd : df.nrows ≠ 0
        · exact ⟨df, by simp [fetch_live_data, h, hd]⟩
        · exact ⟨DataFrame.emptyFrame, by simp [fetch_live_data, h, hd]⟩
  · intro scr2
    refine ⟨"Invalid data source " ++ "apple_music"
        ++ ". Use spotify, youtube, or web.", ?_⟩
    have e : sourceArg "Apple Music" = "apple_music" := rfl
    rw [e]
    have l1 : lowerString "apple_music" = "apple_music" := by decide
    simp [fetch_live_data, l1]

/-- Witness for C9 at the concrete source string "apple_music". -/
theorem C9_fetch_source_validation_witness :
    ∃ msg, fetch_live_data none "apple_music" = Except.error msg :=
  (C9_fetch_source_validation none "apple_music").1
    (by decide) (by decide) (by decide)

/-- The stream total recovered by the fallback branch equals the sum of the
streams column when that column is present. -/
theorem fallback_total_streams (streams : List Int) :
    (if (streamsMillions (some streams) * 1000000 : Rat) = 0
          ∧ (some streams).isSome
     then (((some streams).getD []).sum : Rat)
     else streamsMillions (some streams) * 1000000) = (streams.sum : Rat) := by
  have h : (streamsMillions (some streams) * 1000000 : Rat)
      = (streams.sum : Rat) := by
    simp only [streamsMillions]
    rw [div_mul_cancel₀]
    norm_num
  rw [h]
  split_ifs with hif
  · simp
  · rfl

/-- C10: whenever the ML model cannot be loaded (features are always
preparable), `predict_impact` returns no error, estimation mode, confidence
exactly 0.35, `predicted_gdp` equal to total streams times `GDP_PER_STREAM`,
and `predicted_jobs = max(7, int(predicted_gdp * JOB_PER_GDP))`, hence at
least 7 jobs even for zero streams; when the streams column is absent the
imputed total is 500000 streams. -/
theorem C10_fallback_heuristic (streams : List Int) :
    (predict_impact_fallback (some streams)).error = none ∧
    (predict_impact_fallback (some streams)).estimation = true ∧
    (predict_impact_fallback (some streams)).confidence = some (35/100) ∧
    (predict_impact_fallback (some streams)).predicted_gdp
        = some ((streams.sum : Rat) * GDP_PER_STREAM) ∧
    (predict_impact_fallback (some streams)).predicted_jobs
        = some (max 7
            (intTrunc ((streams.sum : Rat) * GDP_PER_STREAM * JOB_PER_GDP))) ∧
    7 ≤ (predict_impact_fallback (some streams)).predicted_jobs.getD 0 ∧
    (predict_impact_fallback none).predicted_gdp
        = some ((500000 : Rat) * GDP_PER_STREAM) := by
  refine ⟨rfl, rfl, rfl, ?_, ?_, ?_, ?_⟩
  · show some _ = some _
    rw [fallback_total_streams]
  · show some _ = some _
    rw [fallback_total_streams]
  · show (7 : Int) ≤ (some _).getD 0
    rw [Option.getD_some]
    exact le_max_left 7 _
  · norm_num [predict_impact_fallback, streamsMillions]

/-- The cultural-export proxy is never negative. -/
theorem cultural_export_value_nonneg (c : Nat) (s : Int) :
    0 ≤ cultural_export_value c s := by
  unfold cultural_export_value
  split_ifs with h
  · exact le_refl 0
  · push_neg at h
    refine mul_nonneg (mul_nonneg (Nat.cast_nonneg _) ?_) ?_
    · exact_mod_cast h.2.le
    · norm_num [cultural_rate]

/-- The cultural-export proxy is monotone non-decreasing in the country count
and in the stream total. -/
theorem cultural_export_value_mono {c1 c2 : Nat} {s1 s2 : Int}
    (hc : c1 ≤ c2) (hs : s1 ≤ s2) :
    cultural_export_value c1 s1 ≤ cultural_export_value c2 s2 := by
  by_cases h1 : c1 ≤ 1 ∨ s1 ≤ 0
  · rw [cultural_export_value, if_pos h1]
    exact cultural_export_value_nonneg c2 s2
  · push_neg at h1
    have h1' : ¬(c1 ≤ 1 ∨ s1 ≤ 0) := not_or.2 ⟨not_le.2 h1.1, not_le.2 h1.2⟩
    have h2' : ¬(c2 ≤ 1 ∨ s2 ≤ 0) :=
      not_or.2 ⟨not_le.2 (lt_of_lt_of_le h1.1 hc),
        not_le.2 (lt_of_lt_of_le h1.2 hs)⟩
    rw [cultural_export_value, cultural_export_value, if_neg h1', if_neg h2']
    have hA : ((c1 - 1 : Nat) : Rat) ≤ ((c2 - 1 : Nat) : Rat) := by
      exact_mod_cast Nat.sub_le_sub_right hc 1
    have hB : (s1 : Rat) ≤ (s2 : Rat) := by exact_mod_cast hs
    have hB0 : (0 : Rat) ≤ (s1 : Rat) := by exact_mod_cast h1.2.le
    have hA0 : (0 : Rat) ≤ ((c2 - 1 : Nat) : Rat) := Nat.cast_nonneg _
    have hstep : ((c1 - 1 : Nat) : Rat) * (s1 : Rat)
        ≤ ((c2 - 1 : Nat) : Rat) * (s2 : Rat) := mul_le_mul hA hB hB0 hA0
    have hr : (0 : Rat) ≤ cultural_rate := by norm_num [cultural_rate]
    exact mul_le_mul_of_nonneg_right hstep hr

/-- C1: for every input to `detect_underpayment` and every country aggregate,
`gap_ratio` is a well-defined rational (the zero-expected case is guarded to
0 rather than divided), and a country whose summed expected revenue is 0 has
`gap_ratio = 0` and never appears in the output, for any threshold. -/
theorem C1_gap_ratio_guard (xs : List EnrichedRecord) (t : Rat) :
    (∀ a ∈ aggregateByCountry xs,
        a.expected_revenue_ngn = 0 → a.gap_ratio = 0) ∧
    ∀ a ∈ detect_underpayment xs t, a.expected_revenue_ngn ≠ 0 := by
  constructor
  · intro a ha h0
    exact aggregate_gap_ratio_zero ha h0
  · intro a ha
    simp only [detect_underpayment, List.mem_insertionSort,
      List.mem_filter, decide_eq_true_eq] at ha
    exact ha.2.1

/-- Witness for C1 at a one-row table with zero expected revenue. -/
theorem C1_gap_ratio_guard_witness :
    (mkCountryAggregate [⟨"Spotify", "Nigeria", 0, 0, 0⟩] "Nigeria").gap_ratio
      = 0 :=
  (C1_gap_ratio_guard [⟨"Spotify", "Nigeria", 0, 0, 0⟩] 0).1
    (mkCountryAggregate [⟨"Spotify", "Nigeria", 0, 0, 0⟩] "Nigeria")
    (by
      show _ ∈ (((([⟨"Spotify", "Nigeria", 0, 0, 0⟩] : List EnrichedRecord)).map
          (·.country)).dedup).map
          (mkCountryAggregate [⟨"Spotify", "Nigeria", 0, 0, 0⟩])
      exact List.mem_map_of_mem _ (by rw [List.mem_dedup]; simp))
    (by norm_num [mkCountryAggregate])

/-- C2: for a positive threshold, the output of `detect_underpayment`
consists of exactly those per-country aggregates whose `gap_ratio` reaches
the threshold, ordered descending by absolute revenue gap with ties broken
deterministically by country name. -/
theorem C2_flagging_and_ranking (xs : List EnrichedRecord) (t : Rat)
    (ht : 0 < t) :
    (detect_underpayment xs t).Perm
        ((aggregateByCountry xs).filter (fun a => decide (t ≤ a.gap_ratio))) ∧
    (detect_underpayment xs t).Sorted aggLE := by
  constructor
  · have heq : (aggregateByCountry xs).filter
          (fun a => decide (a.expected_revenue_ngn ≠ 0 ∧ t ≤ a.gap_ratio))
        = (aggregateByCountry xs).filter
          (fun a => decide (t ≤ a.gap_ratio)) := by
      apply List.filter_congr
      intro a ha
      simp only [decide_eq_decide]
      constructor
      · exact fun h => h.2
      · intro hle
        refine ⟨fun h0 => ?_, hle⟩
        rw [aggregate_gap_ratio_zero ha h0] at hle
        exact absurd hle (not_le.2 ht)
    exact (List.perm_insertionSort aggLE _).trans (heq ▸ List.Perm.refl _)
  · exact List.sorted_insertionSort aggLE _

/-- Witness for C2 at the spec's scenario 1 and the default threshold 0.3. -/
theorem C2_flagging_and_ranking_witness :
    (detect_underpayment [⟨"Spotify", "Nigeria", 1000000, 500, 200⟩]
        (3/10)).Perm
        ((aggregateByCountry [⟨"Spotify", "Nigeria", 1000000, 500, 200⟩]).filter
          (fun a => decide ((3 : Rat)/10 ≤ a.gap_ratio))) ∧
    (detect_underpayment [⟨"Spotify", "Nigeria", 1000000, 500, 200⟩]
        (3/10)).Sorted aggLE :=
  C2_flagging_and_ranking _ _ (by norm_num)

/-- C3: rate resolution is a total deterministic three-tier fallback — the
exact (platform, country) rate when mapped, else the platform default, else
the global default — and two rows with the same unmapped platform and equal
streams get identical expected revenue equal to streams times the global
default rate. -/
theorem C3_rate_resolution (rt : RateTable) (f : Rat) (p c c1 c2 : String)
    (s : Int) :
    (∀ r, List.lookup (p, c) rt.exact_rates = some r →
        resolve_rate rt p c = r) ∧
    (∀ r, List.lookup (p, c) rt.exact_rates = none →
        List.lookup p rt.platform_rates = some r → resolve_rate rt p c = r) ∧
    (List.lookup (p, c) rt.exact_rates = none →
        List.lookup p rt.platform_rates = none →
        resolve_rate rt p c = rt.global_default) ∧
    (0 ≤ s → List.lookup (p, c1) rt.exact_rates = none →
        List.lookup (p, c2) rt.exact_rates = none →
        List.lookup p rt.platform_rates = none →
        (estimate_royalties rt f
            [⟨some p, some c1, some s, none⟩,
             ⟨some p, some c2, some s, none⟩]).map (·.expected_revenue_ngn)
          = [(s : Rat) * rt.global_default, (s : Rat) * rt.global_default]) := by
  refine ⟨?_, ?_, ?_, ?_⟩
  · intro r h
    simp [resolve_rate, h]
  · intro r h1 h2
    simp [resolve_rate, h1, h2]
  · intro h1 h2
    simp [resolve_rate, h1, h2]
  · intro hs h1 h2 h3
    simp [estimate_royalties, List.filterMap_cons, recoverRow, enrichRow,
      resolve_rate, h1, h2, h3, max_eq_right hs]

/-- Witness for C3 at an empty rate table (everything unmapped). -/
theorem C3_rate_resolution_witness :
    (estimate_royalties ⟨[], [], 1⟩ 0
        [⟨some "X", some "A", some 100, none⟩,
         ⟨some "X", some "B", some 100, none⟩]).map (·.expected_revenue_ngn)
      = [((100 : Int) : Rat) * (1 : Rat), ((100 : Int) : Rat) * (1 : Rat)] :=
  (C3_rate_resolution ⟨[], [], 1⟩ 0 "X" "X" "A" "B" 100).2.2.2
    (by decide) rfl rfl rfl

/-- C5: the cultural export value computed by `economic_impact_proxy` is
monotone non-decreasing in the distinct country count and the total stream
count, and is 0 whenever the input has at most one distinct country or zero
total streams. -/
theorem C5_cultural_monotone (xs ys : List EnrichedRecord)
    (hc : distinct_country_count xs ≤ distinct_country_count ys)
    (hs : total_streams_sum xs ≤ total_streams_sum ys) :
    (economic_impact_proxy xs).cultural_export_value_ngn
        ≤ (economic_impact_proxy ys).cultural_export_value_ngn ∧
    (distinct_country_count xs ≤ 1 ∨ total_streams_sum xs = 0 →
      (economic_impact_proxy xs).cultural_export_value_ngn = 0) := by
  have ex : ∀ zs : List EnrichedRecord,
      (economic_impact_proxy zs).cultural_export_value_ngn
        = cultural_export_value (distinct_country_count zs)
            (total_streams_sum zs) := fun _ => rfl
  constructor
  · rw [ex, ex]
    exact cultural_export_value_mono hc hs
  · intro h
    rw [ex, cultural_export_value]
    exact if_pos (h.elim Or.inl fun h0 => Or.inr (le_of_eq h0))

/-- Witness for C5: the empty table against a two-country table. -/
theorem C5_cultural_monotone_witness :
    (economic_impact_proxy []).cultural_export_value_ngn
      ≤ (economic_impact_proxy
          [⟨"Spotify", "Nigeria", 5, 0, 0⟩,
           ⟨"Spotify", "Ghana", 5, 0, 0⟩]).cultural_export_value_ngn :=
  (C5_cultural_monotone _ _ (by decide) (by decide)).1

end TuneIQ
